import Mathlib

/-!
# Verification of the Vanilla2 leveraged margin-trading engine

A shallow embedding of the numeric and control-flow core of the
`BinanceMarginTrader` class (precision formatting, leveraged order sizing,
borrow-capacity calculation, OCO protection with fallback, protective-order
auditing, exit-plan invalidation, risk scoring, and position closing).

Modelling conventions:
* JavaScript `number` values are modelled as exact rationals (`ℚ`).
  `Math.round(x)` agrees with Lean's `round` on `ℚ` (`⌊x + 1/2⌋`).
* `x || d` on numbers (JavaScript falsy-default) is modelled by `jsOr`,
  which substitutes `d` exactly when `x = 0`.
* Remote calls that may throw are modelled by `Except`-valued inputs; a
  `try`/`catch` block becomes a `match` on that input.
* String formatting (`toFixed`, trailing-zero stripping) is modelled by the
  numeric value of the produced string: `v.toFixed(n)` applied to a value
  that is an integer multiple of `10^(-n)` and the subsequent
  `stripTrailingZeros` do not change the numeric value.
-/

namespace Vanilla2

/-- JavaScript `x || d` for numbers: the default is taken exactly when the
value is falsy (zero). -/
def jsOr (x d : ℚ) : ℚ := if x = 0 then d else x

/-! ## PrecisionFormatter (`roundToDecimals`, `formatOrderValues`) -/

/-- `roundToDecimals(value, decimals)` from the source:
`Math.round(value * 10^decimals) / 10^decimals`. -/
def roundToDecimals (value : ℚ) (decimals : ℕ) : ℚ :=
  (round (value * 10 ^ decimals) : ℤ) / 10 ^ decimals

/-- The precision information of a loaded market
(`market.precision?.amount`, `market.precision?.price`). -/
structure MarketPrecision where
  amount : Option ℕ
  price : Option ℕ
deriving Repr, DecidableEq

/-- `formatOrderValues(symbol, quantity, price?)`, modelled numerically.
`market = none` covers both the missing-market fallback and the
`loadMarkets` failure fallback, which behave identically
(`toFixed(6)` for the quantity, `toFixed(2)` for the price; `toFixed`
rounds to nearest, i.e. `roundToDecimals`).  On a loaded market the
precision defaults `market.precision?.amount || 8` and
`market.precision?.price || 2` are falsy defaults (`jsOr`-like on `ℕ`). -/
def formatOrderValues (market : Option MarketPrecision) (quantity : ℚ)
    (price : Option ℚ) : ℚ × Option ℚ :=
  match market with
  | none =>
      (roundToDecimals quantity 6, price.map (fun p => roundToDecimals p 2))
  | some m =>
      let amountPrecision := match m.amount with
        | none => 8
        | some 0 => 8
        | some n => n
      let pricePrecision := match m.price with
        | none => 2
        | some 0 => 2
        | some n => n
      (roundToDecimals quantity amountPrecision,
       price.map (fun p => roundToDecimals p pricePrecision))

/-! ## RiskScorer (`calculateRiskLevel`, `getLiquidationRecommendation`) -/

/-- `calculateRiskLevel(marginLevel)` from the source. -/
def calculateRiskLevel (marginLevel : ℚ) : String :=
  if marginLevel ≥ 3 then "LOW"
  else if marginLevel ≥ 2 then "MEDIUM"
  else if marginLevel ≥ 3/2 then "HIGH"
  else if marginLevel ≥ 11/10 then "CRITICAL"
  else "LIQUIDATION_IMMINENT"

/-- `getLiquidationRecommendation(marginLevel)` from the source. -/
def getLiquidationRecommendation (marginLevel : ℚ) : String :=
  if marginLevel ≥ 3 then "Safe to continue trading"
  else if marginLevel ≥ 2 then "Consider reducing position size"
  else if marginLevel ≥ 3/2 then "Reduce positions or add collateral"
  else if marginLevel ≥ 11/10 then "URGENT: Close positions or repay loans immediately"
  else "CRITICAL: Account will be liquidated soon"

/-- Rank of a risk tier, `LIQUIDATION_IMMINENT` (0) up to `LOW` (4); used to
state monotonicity of the scorer. -/
def riskTierRank (tier : String) : ℕ :=
  if tier = "LOW" then 4
  else if tier = "MEDIUM" then 3
  else if tier = "HIGH" then 2
  else if tier = "CRITICAL" then 1
  else 0

/-! ## BorrowCapacityCalculator (`getMaxBorrowable`, cross-margin branch) -/

/-- The cross-margin branch of `getMaxBorrowable`, in BTC terms:
inputs are `balance.info.totalNetAssetOfBtc`, `balance.info.totalLiabilityOfBtc`
and `getMarginLevel().marginLevel`; the output is the additional-borrow cap
(`maxAdditionalBorrowBtc`, or the `maxBorrowable: 0` early return when the
margin level is at or below the safety level). -/
def getMaxBorrowableCrossBtc (totalNetAsset totalLiability marginLevel : ℚ) : ℚ :=
  if totalLiability = 0 ∨ totalLiability < 1/100000 then
    totalNetAsset * 2
  else if jsOr marginLevel 1 ≤ 3/2 then 0
  else max 0 (totalNetAsset / (3/2) - totalLiability)

/-! ## LeveragedOrderSizer (`createLeveragedOrder`, sizing core)

The sizing core of `createLeveragedOrder` (lines between the price fetch and
the `createOrder` call) is a pure function of the order side, the requested
amount, the current price, the leverage, the free balance of the borrow
asset, and the maximum borrowable amount; the submitted entry quantity is
`totalAmount` and the returned report carries `originalAmount`,
`adjustedAmount`, `borrowedAmount` and `positionAdjusted`. -/

/-- Order side. -/
inductive Side where
  | buy
  | sell
deriving Repr, DecidableEq

/-- Input of the sizing core of `createLeveragedOrder`. -/
structure LevOrderInput where
  side : Side
  /-- The `amount` argument (the requested exposure). -/
  amount : ℚ
  /-- `currentPrice` (the `price` argument or the ticker price). -/
  currentPrice : ℚ
  /-- `options.leverage`. -/
  leverage : ℚ
  /-- `getAvailableBalance(borrowAsset)`. -/
  availableBalance : ℚ
  /-- `maxBorrowableAmount` extracted from `getMaxBorrowable`. -/
  maxBorrowable : ℚ
deriving Repr, DecidableEq

/-- Result fields of `createLeveragedOrder` relevant to sizing:
`totalAmount` is the quantity passed to `createOrder`, the rest are the
reported fields of the returned object. -/
structure LevOrderResult where
  totalAmount : ℚ
  borrowedAmount : ℚ
  originalAmount : ℚ
  adjustedAmount : ℚ
  positionAdjusted : Bool
deriving Repr, DecidableEq

/-- `positionValue` in `createLeveragedOrder`:
`side === 'buy' ? amount * currentPrice : amount`. -/
def positionValue (side : Side) (amount currentPrice : ℚ) : ℚ :=
  match side with
  | .buy => amount * currentPrice
  | .sell => amount

/-- `protectiveOrderBuffer = Math.min(10, availableBalance * 0.1)`. -/
def protectiveOrderBuffer (availableBalance : ℚ) : ℚ :=
  min 10 (availableBalance * (1/10))

/-- `usableBalance = Math.max(0, availableBalance - protectiveOrderBuffer)`. -/
def usableBalance (availableBalance : ℚ) : ℚ :=
  max 0 (availableBalance - protectiveOrderBuffer availableBalance)

/-- `borrowAmount` before the limit check:
`Math.max(0, totalRequired - usableBalance)` with
`totalRequired = positionValue * leverage`. -/
def neededBorrow (i : LevOrderInput) : ℚ :=
  max 0 (positionValue i.side i.amount i.currentPrice * i.leverage
          - usableBalance i.availableBalance)

/-- The sizing core of `createLeveragedOrder` (the `leverage > 1` path). -/
def createLeveragedOrderSizing (i : LevOrderInput) : LevOrderResult :=
  let usable := usableBalance i.availableBalance
  let borrowAmount0 := neededBorrow i
  if borrowAmount0 > i.maxBorrowable then
    let maxTotalFunds := usable + i.maxBorrowable
    let adjustedAmount := match i.side with
      | .buy => maxTotalFunds / i.currentPrice
      | .sell => maxTotalFunds
    let adjustedPositionValue := positionValue i.side adjustedAmount i.currentPrice
    let borrowAmount := max 0 (adjustedPositionValue - usable)
    let totalFunds := usable + borrowAmount
    let totalAmount := match i.side with
      | .buy => totalFunds / i.currentPrice
      | .sell => adjustedAmount
    { totalAmount := totalAmount
      borrowedAmount := borrowAmount
      originalAmount := i.amount
      adjustedAmount := adjustedAmount
      positionAdjusted := decide (adjustedAmount ≠ i.amount) }
  else
    let totalFunds := usable + borrowAmount0
    let totalAmount := match i.side with
      | .buy => totalFunds / i.currentPrice
      | .sell => i.amount
    { totalAmount := totalAmount
      borrowedAmount := borrowAmount0
      originalAmount := i.amount
      adjustedAmount := i.amount
      positionAdjusted := decide (i.amount ≠ i.amount) }

/-! ## PositionProtectionAuditor (`hasProtectiveOrders`,
`getUnprotectedPositions`) and `addProtectionToPosition` -/

/-- The fields of a venue order consumed by the auditor
(`order.type`, `order.reduceOnly`, `order.price`). -/
structure Order where
  /-- `order.type` (`order.type?.toLowerCase() || ''` guards absence). -/
  type : Option String
  reduceOnly : Bool
  /-- `order.price` (`order.price || 0` guards absence). -/
  price : Option ℚ
deriving Repr, DecidableEq

/-- The fields of a `PositionInfo` consumed here. -/
structure Position where
  symbol : String
  /-- `'long'` or `'short'`. -/
  side : String
  size : ℚ
  markPrice : ℚ
deriving Repr, DecidableEq

/-- Result of `hasProtectiveOrders`. -/
structure ProtectionStatus where
  hasStopLoss : Bool
  hasTakeProfit : Bool
  hasProtection : Bool
  orders : List Order
deriving Repr, DecidableEq

/-- JavaScript `s.toLowerCase()` (over the character data). -/
def strToLower (s : String) : String :=
  ⟨s.toList.map Char.toLower⟩

/-- Whether the character list `pat` occurs contiguously in `s`
(JavaScript `s.includes(pat)`). -/
def charListContains (s pat : List Char) : Bool :=
  match s with
  | [] => pat.isEmpty
  | _ :: rest => pat.isPrefixOf s || charListContains rest pat

/-- JavaScript `s.includes(pat)` on strings. -/
def strIncludes (s pat : String) : Bool :=
  charListContains s.toList pat.toList

/-- One iteration of the classification loop in `hasProtectiveOrders`,
updating the `(hasStopLoss, hasTakeProfit)` pair; fetching the positions
list (needed for the take-profit heuristic) may fail, which the
surrounding `try` turns into the all-`false` default. -/
def classifyOrder (positionsQ : Except String (List Position))
    (symbol : String) (acc : Bool × Bool) (order : Order) :
    Except String (Bool × Bool) :=
  let orderType := strToLower (order.type.getD "")
  let hasStopLoss := if strIncludes orderType "stop" && order.reduceOnly
    then true else acc.1
  if orderType == "limit" && order.reduceOnly then
    match positionsQ with
    | .error e => .error e
    | .ok positions =>
      match positions.find? (fun p => p.symbol == symbol) with
      | some position =>
          let isLong := position.side == "long"
          let orderPrice := order.price.getD 0
          let markPrice := position.markPrice
          if (isLong && decide (orderPrice > markPrice))
              || (!isLong && decide (orderPrice < markPrice)) then
            .ok (hasStopLoss, true)
          else
            .ok (hasStopLoss, acc.2)
      | none => .ok (hasStopLoss, acc.2)
  else
    .ok (hasStopLoss, acc.2)

/-- The `for (const order of openOrders)` loop of `hasProtectiveOrders`:
sequential, stopping at the first thrown error. -/
def classifyLoop (positionsQ : Except String (List Position))
    (symbol : String) :
    Bool × Bool → List Order → Except String (Bool × Bool)
  | acc, [] => .ok acc
  | acc, order :: rest =>
    match classifyOrder positionsQ symbol acc order with
    | .error e => .error e
    | .ok acc2 => classifyLoop positionsQ symbol acc2 rest

/-- The body of the `try` block of `hasProtectiveOrders`: query the open
orders, classify them, and return the flags with the order list. -/
def hasProtectiveOrdersRaw (openOrdersQ : Except String (List Order))
    (positionsQ : Except String (List Position)) (symbol : String) :
    Except String (Bool × Bool × List Order) :=
  match openOrdersQ with
  | .error e => .error e
  | .ok openOrders =>
    match classifyLoop positionsQ symbol (false, false) openOrders with
    | .error e => .error e
    | .ok flags => .ok (flags.1, flags.2, openOrders)

/-- `hasProtectiveOrders(symbol)`: the open-orders query and the
positions query are `Except`-valued inputs; any failure is caught and
reported as the unprotected default. -/
def hasProtectiveOrders (openOrdersQ : Except String (List Order))
    (positionsQ : Except String (List Position)) (symbol : String) :
    ProtectionStatus :=
  match hasProtectiveOrdersRaw openOrdersQ positionsQ symbol with
  | .ok flags =>
      { hasStopLoss := flags.1
        hasTakeProfit := flags.2.1
        hasProtection := flags.1 || flags.2.1
        orders := flags.2.2 }
  | .error _ =>
      { hasStopLoss := false
        hasTakeProfit := false
        hasProtection := false
        orders := [] }

/-- `getUnprotectedPositions()`: every open position whose
`hasProtectiveOrders` check reports no protection.  The open-orders query
is per symbol. -/
def getUnprotectedPositions (positionsQ : Except String (List Position))
    (openOrdersOf : String → Except String (List Order)) :
    Except String (List (Position × Bool × Bool)) := do
  let positions ← positionsQ
  pure <| positions.foldl (fun acc position =>
    let protection := hasProtectiveOrders (openOrdersOf position.symbol)
      positionsQ position.symbol
    if !protection.hasProtection then
      acc ++ [(position, protection.hasStopLoss, protection.hasTakeProfit)]
    else acc) []

/-- Outcome of `addProtectionToPosition`. -/
inductive AddProtectionOutcome where
  /-- A thrown error (`No position found for ...`, or an OCO failure). -/
  | err (msg : String)
  /-- `{ status: 'already_protected', existingOrders }`. -/
  | alreadyProtected (existingOrders : List Order)
  /-- `{ status: 'protected', ... }`: a new OCO was submitted. -/
  | protectedNow (position : Position) (stopLossPrice takeProfitPrice : ℚ)
deriving Repr, DecidableEq

/-- Whether an `AddProtectionOutcome` submitted a (new) OCO order:
only the `status: 'protected'` path reaches `createOCOOrder`. -/
def AddProtectionOutcome.submittedOCO : AddProtectionOutcome → Bool
  | .protectedNow _ _ _ => true
  | _ => false

/-- `addProtectionToPosition(symbol, stopLossPrice, takeProfitPrice)`.
The positions query, the open-orders query and the outcome of the OCO
submission are inputs; an `ocoQ` error models `createOCOOrder` throwing. -/
def addProtectionToPosition (positionsQ : Except String (List Position))
    (openOrdersQ : Except String (List Order))
    (ocoQ : Except String Unit)
    (symbol : String) (stopLossPrice takeProfitPrice : ℚ) :
    AddProtectionOutcome :=
  match positionsQ with
  | .error e => .err e
  | .ok positions =>
    match positions.find? (fun p => p.symbol == symbol) with
    | none => .err ("No position found for " ++ symbol)
    | some position =>
      let existingProtection := hasProtectiveOrders openOrdersQ positionsQ symbol
      if existingProtection.hasProtection
          && existingProtection.hasStopLoss
          && existingProtection.hasTakeProfit then
        .alreadyProtected existingProtection.orders
      else
        match ocoQ with
        | .error e => .err e
        | .ok _ => .protectedNow position stopLossPrice takeProfitPrice

/-! ## ProtectionOrchestrator (`createOCOOrder` with fallback) -/

/-- `OCOOrderOptions`. -/
structure OCOOrderOptions where
  stopPrice : ℚ
  stopLimitPrice : Option ℚ
  limitPrice : ℚ
deriving Repr, DecidableEq

/-- An order-submission action, recording what was sent to the venue. -/
inductive OrderAction where
  /-- `createStopMarketOrder(symbol, side, amount, stopPrice, opts)`:
  submits a `STOP_LOSS_LIMIT` order whose limit price is 5% past the stop
  in the execution-guaranteeing direction. -/
  | stopMarket (side : Side) (amount stopPrice limitPrice : ℚ) (reduceOnly : Bool)
  /-- `createLimitOrder(symbol, side, amount, price, opts)`. -/
  | limitOrder (side : Side) (amount price : ℚ) (reduceOnly : Bool)
deriving Repr, DecidableEq

/-- The limit price used by `createStopMarketOrder`:
`stopPrice * (side === 'sell' ? 0.95 : 1.05)`. -/
def stopMarketLimitPrice (side : Side) (stopPrice : ℚ) : ℚ :=
  match side with
  | .sell => stopPrice * (95/100)
  | .buy => stopPrice * (105/100)

/-- The `OrderAction` submitted by
`createStopMarketOrder(symbol, side, amount, stopPrice, {reduceOnly: true})`
in the fallback path. -/
def createStopMarketAction (side : Side) (amount stopPrice : ℚ) : OrderAction :=
  .stopMarket side amount stopPrice (stopMarketLimitPrice side stopPrice) true

/-- The `OrderAction` submitted by
`createLimitOrder(symbol, side, amount, limitPrice, {reduceOnly: true})`
in the fallback path. -/
def createTakeProfitAction (side : Side) (amount limitPrice : ℚ) : OrderAction :=
  .limitOrder side amount limitPrice true

/-- Result of `createOCOOrder`. -/
inductive OCOOutcome where
  /-- `{ type: 'native_oco', orderListId, ... }`. -/
  | nativeOCO (orderListId : ℕ)
  /-- `{ type: 'separate_orders', stopLossOrder, takeProfitOrder,
  originalError }`. -/
  | separateOrders (stopLossOrder takeProfitOrder : Order)
      (originalError : String)
deriving Repr, DecidableEq

/-- `createOCOOrder(symbol, side, amount, ocoOptions)`: the native OCO
submission and the two fallback legs are `Except`-valued inputs; the
returned pair is the function's result together with the list of fallback
order submissions it performed, in order. -/
def createOCOOrder (nativeQ : Except String ℕ)
    (stopLegQ : Except String Order) (tpLegQ : Except String Order)
    (side : Side) (amount : ℚ) (ocoOptions : OCOOrderOptions) :
    Except String OCOOutcome × List OrderAction :=
  match nativeQ with
  | .ok orderListId => (.ok (.nativeOCO orderListId), [])
  | .error e =>
    match stopLegQ with
    | .error fe =>
        (.error ("Failed to create protective orders: " ++ fe
          ++ ". Original OCO error: " ++ e),
         [createStopMarketAction side amount ocoOptions.stopPrice])
    | .ok stopLossOrder =>
      match tpLegQ with
      | .error fe =>
          (.error ("Failed to create protective orders: " ++ fe
            ++ ". Original OCO error: " ++ e),
           [createStopMarketAction side amount ocoOptions.stopPrice,
            createTakeProfitAction side amount ocoOptions.limitPrice])
      | .ok takeProfitOrder =>
          (.ok (.separateOrders stopLossOrder takeProfitOrder e),
           [createStopMarketAction side amount ocoOptions.stopPrice,
            createTakeProfitAction side amount ocoOptions.limitPrice])

/-! ## ExitPlanEngine (`checkInvalidationConditions`, `evaluateCondition`) -/

/-- `condition.parameters` fields consumed by the evaluator; absent fields
are `none` (JavaScript `undefined`; a numeric comparison against
`undefined` is false). -/
structure CondParams where
  price : Option ℚ
  level : Option ℚ
  consecutiveBars : Option ℕ
deriving Repr, DecidableEq

/-- `InvalidationCondition`; the `type` is kept as a string, since the
evaluator dispatches on its runtime value. -/
structure InvalidationCondition where
  type : String
  description : String
  parameters : CondParams
deriving Repr, DecidableEq

/-- The environment of one evaluation: the live-price lookup, the MACD
histogram of the 4h candles, and the latest 14-period RSI, each of which
may fail.  `checkMACDDecrease` and `checkRSI` catch their own failures and
return `false`. -/
structure CondEnv where
  priceQ : Except String ℚ
  macdHistogramQ : Except String (List ℚ)
  rsiQ : Except String ℚ
deriving Repr

/-- The strict-decrease loop of `checkMACDDecrease`: `false` as soon as a
bar fails to be strictly below its predecessor. -/
def strictlyDecreasing : List ℚ → Bool
  | [] => true
  | [_] => true
  | a :: b :: rest => decide (b < a) && strictlyDecreasing (b :: rest)

/-- `checkMACDDecrease(symbol, params)` given the computed histogram:
checks the last `params.consecutiveBars || 2` histogram bars for strict
decrease; any failure is caught and returns `false`. -/
def checkMACDDecrease (histogramQ : Except String (List ℚ))
    (params : CondParams) : Bool :=
  match histogramQ with
  | .error _ => false
  | .ok histogram =>
    let barsToCheck := match params.consecutiveBars with
      | none => 2
      | some 0 => 2
      | some n => n
    let recentHistogram := histogram.drop (histogram.length - barsToCheck)
    strictlyDecreasing recentHistogram

/-- `checkRSI(symbol, operator, level)` given the latest RSI value; any
failure is caught and returns `false`.  `isBelow` selects the `<`
operator.  A comparison against an absent `level` is false. -/
def checkRSI (rsiQ : Except String ℚ) (isBelow : Bool)
    (level : Option ℚ) : Bool :=
  match rsiQ with
  | .error _ => false
  | .ok currentRSI =>
    match level with
    | none => false
    | some l => if isBelow then decide (currentRSI < l) else decide (currentRSI > l)

/-- `evaluateCondition(symbol, condition)`: fetches the live price, then
dispatches on `condition.type`; unknown types hit the `default` branch
(warn, `false`), and any thrown error is caught and returns `false` —
the function is total. -/
def evaluateCondition (env : CondEnv) (condition : InvalidationCondition) :
    Bool :=
  match env.priceQ with
  | .error _ => false
  | .ok currentPrice =>
    if condition.type == "price_below" then
      match condition.parameters.price with
      | some p => decide (currentPrice < p)
      | none => false
    else if condition.type == "price_above" then
      match condition.parameters.price with
      | some p => decide (currentPrice > p)
      | none => false
    else if condition.type == "macd_decrease" then
      checkMACDDecrease env.macdHistogramQ condition.parameters
    else if condition.type == "rsi_below" then
      checkRSI env.rsiQ true condition.parameters.level
    else if condition.type == "rsi_above" then
      checkRSI env.rsiQ false condition.parameters.level
    else
      false

/-- Result of `checkInvalidationConditions`. -/
structure InvalidationCheck where
  shouldInvalidate : Bool
  triggeredConditions : List InvalidationCondition
  recommendation : String
deriving Repr, DecidableEq

/-- `checkInvalidationConditions(exitPlan)`: evaluates every condition of
the plan and invalidates when at least one triggered. -/
def checkInvalidationConditions (env : CondEnv)
    (invalidationConditions : List InvalidationCondition) :
    InvalidationCheck :=
  let triggeredConditions :=
    invalidationConditions.filter (evaluateCondition env)
  let shouldInvalidate := decide (triggeredConditions.length > 0)
  { shouldInvalidate := shouldInvalidate
    triggeredConditions := triggeredConditions
    recommendation := if shouldInvalidate then
        "CLOSE POSITION IMMEDIATELY - Invalidation conditions met"
      else
        "Continue with exit plan" }

/-! ## `closePosition` -/

/-- Errors thrown by the engine, distinguished from venue/remote failures
so that "not found" can be stated precisely. -/
inductive TraderError where
  /-- `throw new Error('No position found for ...')`. -/
  | notFound (symbol : String)
  /-- An error propagated from a venue call. -/
  | venue (msg : String)
deriving Repr, DecidableEq

/-- Repayment report attached to the result of `closePosition`. -/
inductive RepaymentReport where
  | success (amount : ℚ)
  | insufficientBalance (available needed : ℚ)
  | noDebt
  | errored (msg : String)
  /-- `options.autoRepay === false`: no repayment block at all. -/
  | skipped
deriving Repr, DecidableEq

/-- Result of `closePosition`. -/
inductive CloseOutcome where
  /-- `{ status: 'dust_position', amount, minAmount, ... }`. -/
  | dust (amount minAmount : ℚ)
  /-- The close order was submitted, with the repayment report. -/
  | closed (side : Side) (amount : ℚ) (repayment : RepaymentReport)
deriving Repr, DecidableEq

/-- State-changing venue submissions performed by `closePosition`. -/
inductive CloseAction where
  /-- `createMarketOrder(symbol, side, amount, { reduceOnly: true })`. -/
  | submitClose (side : Side) (amount : ℚ)
  /-- `repayMargin(borrowedAsset, amount)`. -/
  | repayAction (amount : ℚ)
deriving Repr, DecidableEq

/-- Environment of one `closePosition(symbol, options)` call: the
balance entry for the base asset and the outcome of each remote call it
may perform. -/
structure CloseEnv where
  symbol : String
  /-- `balance[baseAsset].total`; `none` when `balance[baseAsset]` is
  absent (`!position`). -/
  baseTotal : Option ℚ
  /-- `loadMarkets()` then `market?.limits?.amount?.min`: an `error` is
  the caught `loadMarkets` failure (close proceeds anyway), `ok none` is
  an absent market or minimum (`|| 0`). -/
  marketMinQ : Except String (Option ℚ)
  /-- The close-order submission; a failure propagates to the caller. -/
  closeOrderQ : Except String Unit
  /-- `options.autoRepay !== false`. -/
  autoRepay : Bool
  /-- `getLiabilityForAsset(borrowedAsset).total`. -/
  liabilityQ : Except String ℚ
  /-- `currentBalance[borrowedAsset]?.free || 0` after the close. -/
  availableQ : Except String ℚ
  /-- The `repayMargin` submission. -/
  repayQ : Except String Unit
deriving Repr

/-- `closePosition(symbol, options)`.  The returned action list records the
state-changing submissions that succeeded (a failing `repayMargin` is
caught into an `errored` repayment report).  The dust check runs before any
submission, so a dust return carries no actions. -/
def closePosition (env : CloseEnv) :
    Except TraderError (CloseOutcome × List CloseAction) :=
  match env.baseTotal with
  | none => .error (.notFound env.symbol)
  | some total =>
    if total = 0 then .error (.notFound env.symbol)
    else
      let side := if total > 0 then Side.sell else Side.buy
      let amount := |total|
      let dustCheck : Option (ℚ × ℚ) :=
        match env.marketMinQ with
        | .error _ => none
        | .ok minOpt =>
          let minAmount := minOpt.getD 0
          if minAmount > 0 ∧ amount < minAmount then
            some (amount, minAmount)
          else none
      match dustCheck with
      | some (a, m) => .ok (.dust a m, [])
      | none =>
        match env.closeOrderQ with
        | .error e => .error (.venue e)
        | .ok _ =>
          let closeActions := [CloseAction.submitClose side amount]
          if env.autoRepay then
            match env.liabilityQ with
            | .error e => .ok (.closed side amount (.errored e), closeActions)
            | .ok liabilityTotal =>
              if liabilityTotal > 0 then
                match env.availableQ with
                | .error e => .ok (.closed side amount (.errored e), closeActions)
                | .ok available =>
                  if available ≥ liabilityTotal then
                    match env.repayQ with
                    | .error e =>
                        .ok (.closed side amount (.errored e), closeActions)
                    | .ok _ =>
                        .ok (.closed side amount (.success liabilityTotal),
                          closeActions ++ [CloseAction.repayAction liabilityTotal])
                  else
                    .ok (.closed side amount
                      (.insufficientBalance available liabilityTotal),
                      closeActions)
              else
                .ok (.closed side amount .noDebt, closeActions)
          else
            .ok (.closed side amount .skipped, closeActions)

/-- Whether an order action is flagged reduce-only. -/
def OrderAction.isReduceOnly : OrderAction → Bool
  | .stopMarket _ _ _ _ r => r
  | .limitOrder _ _ _ r => r

/-- The recommendation string attached to each risk tier; used to state
that `getLiquidationRecommendation` is a function of the tier alone. -/
def recommendationOfTier (tier : String) : String :=
  if tier = "LOW" then "Safe to continue trading"
  else if tier = "MEDIUM" then "Consider reducing position size"
  else if tier = "HIGH" then "Reduce positions or add collateral"
  else if tier = "CRITICAL" then "URGENT: Close positions or repay loans immediately"
  else "CRITICAL: Account will be liquidated soon"

/-- The condition types handled by the `switch` in `evaluateCondition`;
anything else falls to the `default` branch. -/
def knownConditionTypes : List String :=
  ["price_below", "price_above", "macd_decrease", "rsi_below", "rsi_above"]

/-! # Theorems -/

/-- Helper: the tier rank of the risk scorer, expressed by thresholds. -/
theorem riskTierRank_calculateRiskLevel (x : ℚ) :
    riskTierRank (calculateRiskLevel x)
      = if x ≥ 3 then 4 else if x ≥ 2 then 3 else if x ≥ 3/2 then 2
        else if x ≥ 11/10 then 1 else 0 := by
  unfold calculateRiskLevel
  split_ifs <;> decide

/-- C1 (counterexample): the quantity-formatting step does NOT truncate
downward: with instrument precision 3 (step size `0.001`), the raw
quantity `0.0019999` formats to `0.002`, not `0.001`, and the formatted
value exceeds the raw value (a round up). -/
theorem formatOrderValues_roundup_counterexample :
    (formatOrderValues (some ⟨some 3, some 2⟩) (19999/10000000) none).1 = 2/1000
    ∧ ((2 : ℚ)/1000 ≠ 1/1000)
    ∧ (19999/10000000 : ℚ)
        < (formatOrderValues (some ⟨some 3, some 2⟩) (19999/10000000) none).1 := by
  refine ⟨?_, by norm_num, ?_⟩ <;>
    simp only [formatOrderValues] <;>
    norm_num [roundToDecimals, round_eq]

/-- C1 (amended): `formatOrderValues` rounds the quantity to the NEAREST
value at the instrument precision (`Math.round`, half up) rather than
truncating: the result is an integer multiple of `10^(-precision)` and
differs from the raw quantity by at most half a step — so it can round up,
and with precision 3 the raw quantity `0.0019999` formats to `0.002`. -/
theorem formatOrderValues_rounds_to_nearest (q : ℚ) (d : ℕ) :
    (∃ n : ℤ, roundToDecimals q d = (n : ℚ) / 10 ^ d)
    ∧ |roundToDecimals q d - q| ≤ 1 / (2 * 10 ^ d)
    ∧ (formatOrderValues (some ⟨some 3, some 2⟩) (19999/10000000) none).1
        = 2/1000 := by
  have h10 : (0 : ℚ) < 10 ^ d := by positivity
  refine ⟨⟨round (q * 10 ^ d), rfl⟩, ?_, by
    simp only [formatOrderValues]
    norm_num [roundToDecimals, round_eq]⟩
  have key : roundToDecimals q d - q
      = ((round (q * 10 ^ d) : ℚ) - q * 10 ^ d) / 10 ^ d := by
    unfold roundToDecimals
    field_simp
    ring
  rw [key, abs_div, abs_of_pos h10]
  have habs : |(round (q * 10 ^ d) : ℚ) - q * 10 ^ d| ≤ 1 / 2 := by
    rw [abs_sub_comm]
    exact abs_sub_round (q * 10 ^ d)
  have hrw : (1 : ℚ) / (2 * 10 ^ d) = (1 / 2) / 10 ^ d := by
    rw [div_div]
  rw [hrw]
  exact (div_le_div_iff_of_pos_right h10).mpr habs

/-- C6: the risk scorer is a pure total function of the margin level with
thresholds inclusive on the safe side (`LOW` for `≥ 3`, `MEDIUM` on
`[2, 3)`, `HIGH` on `[1.5, 2)`, `CRITICAL` on `[1.1, 1.5)`, otherwise
`LIQUIDATION_IMMINENT`), its tier is monotonically non-decreasing in the
margin level, and the recommendation string is determined by the tier. -/
theorem calculateRiskLevel_spec (m : ℚ) :
    (3 ≤ m → calculateRiskLevel m = "LOW")
    ∧ (2 ≤ m ∧ m < 3 → calculateRiskLevel m = "MEDIUM")
    ∧ (3/2 ≤ m ∧ m < 2 → calculateRiskLevel m = "HIGH")
    ∧ (11/10 ≤ m ∧ m < 3/2 → calculateRiskLevel m = "CRITICAL")
    ∧ (m < 11/10 → calculateRiskLevel m = "LIQUIDATION_IMMINENT")
    ∧ (∀ m' : ℚ, m ≤ m' →
        riskTierRank (calculateRiskLevel m) ≤ riskTierRank (calculateRiskLevel m'))
    ∧ getLiquidationRecommendation m = recommendationOfTier (calculateRiskLevel m) := by
  refine ⟨?_, ?_, ?_, ?_, ?_, ?_, ?_⟩
  · intro h
    unfold calculateRiskLevel
    split_ifs <;> first | rfl | linarith
  · rintro ⟨h1, h2⟩
    unfold calculateRiskLevel
    split_ifs <;> first | rfl | linarith
  · rintro ⟨h1, h2⟩
    unfold calculateRiskLevel
    split_ifs <;> first | rfl | linarith
  · rintro ⟨h1, h2⟩
    unfold calculateRiskLevel
    split_ifs <;> first | rfl | linarith
  · intro h
    unfold calculateRiskLevel
    split_ifs <;> first | rfl | linarith
  · intro m' hmm'
    rw [riskTierRank_calculateRiskLevel, riskTierRank_calculateRiskLevel]
    split_ifs <;> first | omega | (exfalso; linarith)
  · unfold calculateRiskLevel getLiquidationRecommendation
    split_ifs <;> decide

/-- Witness for C6: the scorer applied at the four boundary values and at
`1.0`, through `calculateRiskLevel_spec`. -/
theorem calculateRiskLevel_spec_witness :
    calculateRiskLevel 3 = "LOW" ∧ calculateRiskLevel 2 = "MEDIUM"
    ∧ calculateRiskLevel (3/2) = "HIGH"
    ∧ calculateRiskLevel (11/10) = "CRITICAL"
    ∧ calculateRiskLevel 1 = "LIQUIDATION_IMMINENT"
    ∧ riskTierRank (calculateRiskLevel 1) ≤ riskTierRank (calculateRiskLevel (7/2)) :=
  ⟨(calculateRiskLevel_spec 3).1 (by norm_num),
   (calculateRiskLevel_spec 2).2.1 ⟨by norm_num, by norm_num⟩,
   (calculateRiskLevel_spec (3/2)).2.2.1 ⟨by norm_num, by norm_num⟩,
   (calculateRiskLevel_spec (11/10)).2.2.2.1 ⟨by norm_num, by norm_num⟩,
   (calculateRiskLevel_spec 1).2.2.2.2.1 (by norm_num),
   (calculateRiskLevel_spec 1).2.2.2.2.2.1 (7/2) (by norm_num)⟩

/-- C7: the cross-margin branch of `getMaxBorrowable` caps the additional
borrow at `2 × total net collateral` when the total liability is below
`0.00001`; otherwise it permits no borrowing when the margin level is at
or below `1.5`, and otherwise allows
`max(0, totalNetAsset / 1.5 - totalLiability)`. -/
theorem getMaxBorrowableCrossBtc_spec (na tl ml : ℚ) :
    (tl < 1/100000 → getMaxBorrowableCrossBtc na tl ml = na * 2)
    ∧ (1/100000 ≤ tl → ml ≤ 3/2 → getMaxBorrowableCrossBtc na tl ml = 0)
    ∧ (1/100000 ≤ tl → 3/2 < ml →
        getMaxBorrowableCrossBtc na tl ml = max 0 (na / (3/2) - tl)) := by
  unfold getMaxBorrowableCrossBtc jsOr
  refine ⟨fun h => ?_, fun h1 h2 => ?_, fun h1 h2 => ?_⟩
  · rw [if_pos (Or.inr h)]
  · rw [if_neg (by rintro (rfl | hlt) <;> linarith)]
    split_ifs <;> first | rfl | (exfalso; linarith)
  · rw [if_neg (by rintro (rfl | hlt) <;> linarith)]
    split_ifs <;> first | rfl | (exfalso; linarith)

/-- Witness for C7: the three branches at concrete inputs, through
`getMaxBorrowableCrossBtc_spec`. -/
theorem getMaxBorrowableCrossBtc_spec_witness :
    getMaxBorrowableCrossBtc 4 0 0 = 4 * 2
    ∧ getMaxBorrowableCrossBtc 4 1 (14/10) = 0
    ∧ getMaxBorrowableCrossBtc 4 1 2 = max 0 (4 / (3/2) - 1) :=
  ⟨(getMaxBorrowableCrossBtc_spec 4 0 0).1 (by norm_num),
   (getMaxBorrowableCrossBtc_spec 4 1 (14/10)).2.1 (by norm_num) (by norm_num),
   (getMaxBorrowableCrossBtc_spec 4 1 2).2.2 (by norm_num) (by norm_num)⟩

/-- C2 (counterexample): with a buy entry of `0.01 BTC` at price `50000`,
leverage `5`, free balance `600` and a cap of `3000`, the needed borrow
(`1910`) is within the cap and `positionAdjusted` is `false`, yet the
quantity submitted to `createOrder` is `0.05`
(`(usable + borrow)/price = leverage × exposure`), not the requested
`0.01`. -/
theorem createLeveragedOrder_full_exposure_counterexample :
    neededBorrow ⟨.buy, 1/100, 50000, 5, 600, 3000⟩ ≤ 3000
    ∧ (createLeveragedOrderSizing ⟨.buy, 1/100, 50000, 5, 600, 3000⟩).positionAdjusted
        = false
    ∧ (createLeveragedOrderSizing ⟨.buy, 1/100, 50000, 5, 600, 3000⟩).totalAmount
        = 1/20
    ∧ ((1 : ℚ)/20 ≠ 1/100) := by
  refine ⟨?_, ?_, ?_, by norm_num⟩ <;>
    norm_num [createLeveragedOrderSizing, neededBorrow, usableBalance,
      protectiveOrderBuffer, positionValue, min_def, max_def]

/-- C2 (amended): when the needed borrow is within the cap,
`createLeveragedOrder` performs no adjustment (`positionAdjusted == false`,
reported `adjustedAmount` equals the requested exposure, borrow equals the
needed borrow) — but the quantity actually submitted equals the requested
`desiredExposure` only for sell orders; for buy orders the submitted
quantity times price equals `usableBalance + neededBorrow`, which is
`desiredExposure × leverage` whenever a positive borrow is needed. -/
theorem createLeveragedOrderSizing_within_cap (i : LevOrderInput)
    (hlev : 1 < i.leverage) (hcap : neededBorrow i ≤ i.maxBorrowable)
    (hprice : 0 < i.currentPrice) :
    (createLeveragedOrderSizing i).positionAdjusted = false
    ∧ (createLeveragedOrderSizing i).adjustedAmount = i.amount
    ∧ (createLeveragedOrderSizing i).originalAmount = i.amount
    ∧ (createLeveragedOrderSizing i).borrowedAmount = neededBorrow i
    ∧ (i.side = .sell → (createLeveragedOrderSizing i).totalAmount = i.amount)
    ∧ (i.side = .buy → (createLeveragedOrderSizing i).totalAmount * i.currentPrice
        = usableBalance i.availableBalance + neededBorrow i)
    ∧ (i.side = .buy → 0 < neededBorrow i →
        (createLeveragedOrderSizing i).totalAmount = i.amount * i.leverage) := by
  have hp0 : i.currentPrice ≠ 0 := ne_of_gt hprice
  have hnot : ¬ (neededBorrow i > i.maxBorrowable) := not_lt.mpr hcap
  simp only [createLeveragedOrderSizing, if_neg hnot]
  refine ⟨by simp, trivial, trivial, trivial, ?_, ?_, ?_⟩
  · intro hs
    simp only [hs]
  · intro hs
    simp only [hs]
    exact div_mul_cancel₀ _ hp0
  · intro hs hpos
    have hx : 0 < positionValue i.side i.amount i.currentPrice * i.leverage
        - usableBalance i.availableBalance := by
      by_contra hle
      push_neg at hle
      have : neededBorrow i = 0 := by
        unfold neededBorrow
        exact max_eq_left hle
      linarith
    have hn : neededBorrow i
        = positionValue i.side i.amount i.currentPrice * i.leverage
          - usableBalance i.availableBalance := by
      unfold neededBorrow
      exact max_eq_right (le_of_lt hx)
    simp only [hs]
    rw [hn]
    simp only [hs, positionValue]
    field_simp
    ring

/-- Witness for C2 (amended), through `createLeveragedOrderSizing_within_cap`
at the concrete buy input of the counterexample. -/
theorem createLeveragedOrderSizing_within_cap_witness :
    (createLeveragedOrderSizing ⟨.buy, 1/100, 50000, 5, 600, 3000⟩).positionAdjusted
        = false
    ∧ (createLeveragedOrderSizing ⟨.buy, 1/100, 50000, 5, 600, 3000⟩).totalAmount
        = (1/100) * 5 :=
  ⟨(createLeveragedOrderSizing_within_cap ⟨.buy, 1/100, 50000, 5, 600, 3000⟩
      (by norm_num)
      (by norm_num [neededBorrow, usableBalance, protectiveOrderBuffer,
        positionValue, min_def, max_def])
      (by norm_num)).1,
   (createLeveragedOrderSizing_within_cap ⟨.buy, 1/100, 50000, 5, 600, 3000⟩
      (by norm_num)
      (by norm_num [neededBorrow, usableBalance, protectiveOrderBuffer,
        positionValue, min_def, max_def])
      (by norm_num)).2.2.2.2.2.2 rfl
      (by norm_num [neededBorrow, usableBalance, protectiveOrderBuffer,
        positionValue, min_def, max_def])⟩

/-- C3 (counterexample): with a buy entry of `0.01 BTC` at price `50000`,
leverage `5`, free balance `500` (usable `490`) and a borrow cap of `10`,
the needed borrow (`2010`) exceeds the cap, yet the submitted quantity
equals the requested `0.01` exactly (not strictly less) and
`positionAdjusted` is reported `false` (the capped funds
`490 + 10 = 500` buy exactly the requested exposure). -/
theorem createLeveragedOrder_shrink_counterexample :
    neededBorrow ⟨.buy, 1/100, 50000, 5, 500, 10⟩ > (10 : ℚ)
    ∧ (createLeveragedOrderSizing ⟨.buy, 1/100, 50000, 5, 500, 10⟩).totalAmount
        = 1/100
    ∧ ¬ ((createLeveragedOrderSizing ⟨.buy, 1/100, 50000, 5, 500, 10⟩).totalAmount
        < 1/100)
    ∧ (createLeveragedOrderSizing ⟨.buy, 1/100, 50000, 5, 500, 10⟩).positionAdjusted
        = false := by
  refine ⟨?_, ?_, ?_, ?_⟩ <;>
    norm_num [createLeveragedOrderSizing, neededBorrow, usableBalance,
      protectiveOrderBuffer, positionValue, min_def, max_def]

/-- C3 (amended): when the needed borrow exceeds the cap (and the cap is
non-negative), `createLeveragedOrder` caps the borrow exactly at the
maximum borrowable, the adjusted order value exactly equals
`usableBalance + cappedBorrow` (no rounding slack), the submitted quantity
is strictly less than `leverage × desiredExposure` (though not necessarily
less than `desiredExposure` itself), both the requested and the adjusted
amounts are reported, and `positionAdjusted` is `true` exactly when the
adjusted amount differs from the requested one. -/
theorem createLeveragedOrderSizing_over_cap (i : LevOrderInput)
    (hlev : 1 < i.leverage) (hcap : i.maxBorrowable < neededBorrow i)
    (hmb : 0 ≤ i.maxBorrowable) (hprice : 0 < i.currentPrice) :
    (createLeveragedOrderSizing i).borrowedAmount = i.maxBorrowable
    ∧ positionValue i.side (createLeveragedOrderSizing i).totalAmount i.currentPrice
        = usableBalance i.availableBalance + i.maxBorrowable
    ∧ (createLeveragedOrderSizing i).totalAmount < i.amount * i.leverage
    ∧ (createLeveragedOrderSizing i).originalAmount = i.amount
    ∧ (createLeveragedOrderSizing i).adjustedAmount
        = (createLeveragedOrderSizing i).totalAmount
    ∧ ((createLeveragedOrderSizing i).positionAdjusted = true
        ↔ (createLeveragedOrderSizing i).adjustedAmount ≠ i.amount) := by
  have hp0 : i.currentPrice ≠ 0 := ne_of_gt hprice
  have hshort : usableBalance i.availableBalance + i.maxBorrowable
      < positionValue i.side i.amount i.currentPrice * i.leverage := by
    have hx : i.maxBorrowable
        < positionValue i.side i.amount i.currentPrice * i.leverage
          - usableBalance i.availableBalance := by
      by_contra hle
      push_neg at hle
      have : neededBorrow i ≤ i.maxBorrowable := by
        unfold neededBorrow
        exact max_le hmb hle
      linarith
    linarith
  cases hs : i.side with
  | buy =>
    simp only [positionValue, hs] at hshort
    simp only [createLeveragedOrderSizing, if_pos hcap, hs, positionValue]
    rw [div_mul_cancel₀ _ hp0, add_sub_cancel_left, max_eq_right hmb]
    refine ⟨by trivial, ?_, ?_, by trivial, by trivial, by simp⟩
    · exact div_mul_cancel₀ _ hp0
    · rw [div_lt_iff₀ hprice]
      calc usableBalance i.availableBalance + i.maxBorrowable
          < i.amount * i.currentPrice * i.leverage := hshort
        _ = i.amount * i.leverage * i.currentPrice := by ring
  | sell =>
    simp only [positionValue, hs] at hshort
    simp only [createLeveragedOrderSizing, if_pos hcap, hs, positionValue]
    rw [add_sub_cancel_left, max_eq_right hmb]
    exact ⟨by trivial, by trivial, hshort, by trivial, by trivial, by simp⟩

/-- Witness for C3 (amended), through `createLeveragedOrderSizing_over_cap`
at a concrete over-cap buy input. -/
theorem createLeveragedOrderSizing_over_cap_witness :
    (createLeveragedOrderSizing ⟨.buy, 1/100, 50000, 5, 500, 5⟩).borrowedAmount = 5
    ∧ positionValue .buy
        (createLeveragedOrderSizing ⟨.buy, 1/100, 50000, 5, 500, 5⟩).totalAmount 50000
        = usableBalance 500 + 5
    ∧ (createLeveragedOrderSizing ⟨.buy, 1/100, 50000, 5, 500, 5⟩).totalAmount
        < (1/100) * 5 :=
  ⟨(createLeveragedOrderSizing_over_cap ⟨.buy, 1/100, 50000, 5, 500, 5⟩
      (by norm_num)
      (by norm_num [neededBorrow, usableBalance, protectiveOrderBuffer,
        positionValue, min_def, max_def])
      (by norm_num) (by norm_num)).1,
   (createLeveragedOrderSizing_over_cap ⟨.buy, 1/100, 50000, 5, 500, 5⟩
      (by norm_num)
      (by norm_num [neededBorrow, usableBalance, protectiveOrderBuffer,
        positionValue, min_def, max_def])
      (by norm_num) (by norm_num)).2.1,
   (createLeveragedOrderSizing_over_cap ⟨.buy, 1/100, 50000, 5, 500, 5⟩
      (by norm_num)
      (by norm_num [neededBorrow, usableBalance, protectiveOrderBuffer,
        positionValue, min_def, max_def])
      (by norm_num) (by norm_num)).2.2.1⟩

/-- Helper: `hasProtectiveOrders` always reports
`hasProtection = hasStopLoss || hasTakeProfit`. -/
theorem hasProtection_eq_or (ooQ : Except String (List Order))
    (psQ : Except String (List Position)) (symbol : String) :
    (hasProtectiveOrders ooQ psQ symbol).hasProtection
      = ((hasProtectiveOrders ooQ psQ symbol).hasStopLoss
          || (hasProtectiveOrders ooQ psQ symbol).hasTakeProfit) := by
  unfold hasProtectiveOrders
  cases h : hasProtectiveOrdersRaw ooQ psQ symbol <;> simp

/-- C4 (counterexample): a position protected by a reduce-only stop order
alone has `hasProtection = true` per `hasProtectiveOrders`, yet
`addProtectionToPosition` does NOT return `already_protected`: it submits
a second OCO and returns `protected`. -/
theorem addProtectionToPosition_partial_protection_counterexample :
    (hasProtectiveOrders (.ok [⟨some "STOP_LOSS_LIMIT", true, some 47000⟩])
        (.ok [⟨"BTC/USDT", "long", 1, 50000⟩]) "BTC/USDT").hasProtection = true
    ∧ addProtectionToPosition (.ok [⟨"BTC/USDT", "long", 1, 50000⟩])
        (.ok [⟨some "STOP_LOSS_LIMIT", true, some 47000⟩]) (.ok ())
        "BTC/USDT" 47500 55000
      = .protectedNow ⟨"BTC/USDT", "long", 1, 50000⟩ 47500 55000
    ∧ (addProtectionToPosition (.ok [⟨"BTC/USDT", "long", 1, 50000⟩])
        (.ok [⟨some "STOP_LOSS_LIMIT", true, some 47000⟩]) (.ok ())
        "BTC/USDT" 47500 55000).submittedOCO = true := by
  refine ⟨by decide, by decide, by decide⟩

/-- C4 (amended): `addProtectionToPosition` detects existing protection and
returns `already_protected` (without submitting an OCO) exactly when the
`hasProtectiveOrders` audit reports BOTH a stop-loss and a take-profit; if
at most one of the two is present — even though `hasProtection` is true —
it proceeds to submit another OCO.  A second call after a fully successful
protection (both legs live) is therefore idempotent. -/
theorem addProtectionToPosition_idempotency
    (positionsQ : Except String (List Position))
    (openOrdersQ : Except String (List Order)) (ocoQ : Except String Unit)
    (symbol : String) (stopLossPrice takeProfitPrice : ℚ)
    (ps : List Position) (position : Position)
    (hps : positionsQ = .ok ps)
    (hfind : ps.find? (fun p => p.symbol == symbol) = some position) :
    ((hasProtectiveOrders openOrdersQ positionsQ symbol).hasStopLoss = true →
      (hasProtectiveOrders openOrdersQ positionsQ symbol).hasTakeProfit = true →
      addProtectionToPosition positionsQ openOrdersQ ocoQ symbol stopLossPrice
          takeProfitPrice
        = .alreadyProtected (hasProtectiveOrders openOrdersQ positionsQ symbol).orders
      ∧ (addProtectionToPosition positionsQ openOrdersQ ocoQ symbol stopLossPrice
          takeProfitPrice).submittedOCO = false)
    ∧ (((hasProtectiveOrders openOrdersQ positionsQ symbol).hasStopLoss
          && (hasProtectiveOrders openOrdersQ positionsQ symbol).hasTakeProfit) = false →
      addProtectionToPosition positionsQ openOrdersQ ocoQ symbol stopLossPrice
          takeProfitPrice
        = match ocoQ with
          | .error e => .err e
          | .ok _ => .protectedNow position stopLossPrice takeProfitPrice) := by
  subst hps
  have hP := hasProtection_eq_or openOrdersQ (.ok ps) symbol
  constructor
  · intro hsl htp
    simp only [addProtectionToPosition, hfind, hP, hsl, htp]
    simp [AddProtectionOutcome.submittedOCO]
  · intro hboth
    simp only [addProtectionToPosition, hfind, hP]
    cases hsl : (hasProtectiveOrders openOrdersQ (.ok ps) symbol).hasStopLoss <;>
      cases htp : (hasProtectiveOrders openOrdersQ (.ok ps) symbol).hasTakeProfit <;>
      simp_all

/-- Witness for C4 (amended): a position with both a reduce-only stop order
and a favorably-priced reduce-only limit order gets `already_protected` and
no second OCO, through `addProtectionToPosition_idempotency`. -/
theorem addProtectionToPosition_idempotency_witness :
    addProtectionToPosition (.ok [⟨"BTC/USDT", "long", 1, 50000⟩])
        (.ok [⟨some "STOP_LOSS_LIMIT", true, some 47000⟩,
              ⟨some "limit", true, some 55000⟩]) (.ok ())
        "BTC/USDT" 47500 55000
      = .alreadyProtected (hasProtectiveOrders
          (.ok [⟨some "STOP_LOSS_LIMIT", true, some 47000⟩,
                ⟨some "limit", true, some 55000⟩])
          (.ok [⟨"BTC/USDT", "long", 1, 50000⟩]) "BTC/USDT").orders
    ∧ (addProtectionToPosition (.ok [⟨"BTC/USDT", "long", 1, 50000⟩])
        (.ok [⟨some "STOP_LOSS_LIMIT", true, some 47000⟩,
              ⟨some "limit", true, some 55000⟩]) (.ok ())
        "BTC/USDT" 47500 55000).submittedOCO = false :=
  (addProtectionToPosition_idempotency
    (.ok [⟨"BTC/USDT", "long", 1, 50000⟩])
    (.ok [⟨some "STOP_LOSS_LIMIT", true, some 47000⟩,
          ⟨some "limit", true, some 55000⟩]) (.ok ())
    "BTC/USDT" 47500 55000
    [⟨"BTC/USDT", "long", 1, 50000⟩] ⟨"BTC/USDT", "long", 1, 50000⟩
    rfl (by decide)).1 (by decide) (by decide)

/-- Helper for C9: if the positions query fails and some open order is a
reduce-only limit order (so the classification must consult the positions),
the classification loop propagates the error. -/
theorem classifyLoop_positions_error (symbol : String) (e : String) :
    ∀ (orders : List Order) (acc : Bool × Bool),
    (∃ o ∈ orders, (strToLower (o.type.getD "") == "limit" && o.reduceOnly) = true) →
    classifyLoop (.error e) symbol acc orders = .error e := by
  intro orders
  induction orders with
  | nil => simp
  | cons o rest ih =>
    intro acc hex
    by_cases ho : (strToLower (o.type.getD "") == "limit" && o.reduceOnly) = true
    · simp only [classifyLoop, classifyOrder, ho, if_true]
    · rcases hex with ⟨o2, ho2mem, ho2⟩
      rcases List.mem_cons.mp ho2mem with rfl | hrest
      · exact absurd ho2 ho
      · simp only [classifyLoop, classifyOrder, ho, if_false]
        exact ih _ ⟨o2, hrest, ho2⟩

/-- C9: `hasProtectiveOrders` never throws and fails closed: when the
open-orders query fails it returns the all-`false`/empty result, which is
exactly the result for a genuinely empty order list (so a venue failure is
indistinguishable from an unprotected position); when the positions query
needed by the take-profit classification fails, the result is the same
default.  Failures therefore only ever under-report protection: every
failure result has `hasStopLoss = hasTakeProfit = hasProtection = false`,
and in general `hasProtection` never exceeds the classified legs
(`hasProtection = hasStopLoss || hasTakeProfit`). -/
theorem hasProtectiveOrders_failure_default (ooQ : Except String (List Order))
    (psQ : Except String (List Position)) (symbol : String) :
    ((hasProtectiveOrders ooQ psQ symbol).hasProtection
      = ((hasProtectiveOrders ooQ psQ symbol).hasStopLoss
          || (hasProtectiveOrders ooQ psQ symbol).hasTakeProfit))
    ∧ (∀ e, ooQ = .error e →
        hasProtectiveOrders ooQ psQ symbol
          = { hasStopLoss := false, hasTakeProfit := false,
              hasProtection := false, orders := [] }
        ∧ hasProtectiveOrders ooQ psQ symbol
          = hasProtectiveOrders (.ok []) psQ symbol)
    ∧ (∀ e orders, psQ = .error e → ooQ = .ok orders →
        (∃ o ∈ orders,
          (strToLower (o.type.getD "") == "limit" && o.reduceOnly) = true) →
        hasProtectiveOrders ooQ psQ symbol
          = { hasStopLoss := false, hasTakeProfit := false,
              hasProtection := false, orders := [] }) := by
  refine ⟨hasProtection_eq_or ooQ psQ symbol, ?_, ?_⟩
  · rintro e rfl
    exact ⟨rfl, rfl⟩
  · rintro e orders rfl rfl hex
    simp only [hasProtectiveOrders, hasProtectiveOrdersRaw,
      classifyLoop_positions_error symbol e orders (false, false) hex]

/-- Witness for C9: a failing open-orders query and a failing positions
query both yield the unprotected default, through
`hasProtectiveOrders_failure_default`. -/
theorem hasProtectiveOrders_failure_default_witness :
    hasProtectiveOrders (.error "venue down") (.ok []) "BTC/USDT"
      = { hasStopLoss := false, hasTakeProfit := false,
          hasProtection := false, orders := [] }
    ∧ hasProtectiveOrders (.error "venue down") (.ok []) "BTC/USDT"
      = hasProtectiveOrders (.ok []) (.ok []) "BTC/USDT"
    ∧ hasProtectiveOrders (.ok [⟨some "limit", true, some 55000⟩])
        (.error "venue down") "BTC/USDT"
      = { hasStopLoss := false, hasTakeProfit := false,
          hasProtection := false, orders := [] } :=
  ⟨((hasProtectiveOrders_failure_default (.error "venue down") (.ok [])
      "BTC/USDT").2.1 "venue down" rfl).1,
   ((hasProtectiveOrders_failure_default (.error "venue down") (.ok [])
      "BTC/USDT").2.1 "venue down" rfl).2,
   (hasProtectiveOrders_failure_default (.ok [⟨some "limit", true, some 55000⟩])
      (.error "venue down") "BTC/USDT").2.2 "venue down"
      [⟨some "limit", true, some 55000⟩] rfl rfl
      ⟨⟨some "limit", true, some 55000⟩, by decide, by decide⟩⟩

/-- C5: whenever the native OCO submission fails, the fallback of
`createOCOOrder` submits the reduce-only stop order first, then the
reduce-only limit take-profit order (every fallback submission is
reduce-only); if the stop leg itself fails the function throws
(`Failed to create protective orders`); and when both fallback legs
succeed the result reports both orders together with the original OCO
error. -/
theorem createOCOOrder_fallback_spec (nativeQ : Except String ℕ)
    (stopLegQ tpLegQ : Except String Order) (side : Side) (amount : ℚ)
    (ocoOptions : OCOOrderOptions) (e : String) (hn : nativeQ = .error e) :
    ((createOCOOrder nativeQ stopLegQ tpLegQ side amount ocoOptions).2.head?
        = some (createStopMarketAction side amount ocoOptions.stopPrice))
    ∧ (∀ a ∈ (createOCOOrder nativeQ stopLegQ tpLegQ side amount ocoOptions).2,
        a.isReduceOnly = true)
    ∧ (∀ fe, stopLegQ = .error fe →
        ∃ msg, (createOCOOrder nativeQ stopLegQ tpLegQ side amount ocoOptions).1
          = .error msg)
    ∧ (∀ s t, stopLegQ = .ok s → tpLegQ = .ok t →
        (createOCOOrder nativeQ stopLegQ tpLegQ side amount ocoOptions).1
          = .ok (.separateOrders s t e)
        ∧ (createOCOOrder nativeQ stopLegQ tpLegQ side amount ocoOptions).2
          = [createStopMarketAction side amount ocoOptions.stopPrice,
             createTakeProfitAction side amount ocoOptions.limitPrice]) := by
  subst hn
  rcases stopLegQ with fe | s <;> rcases tpLegQ with te | t <;>
    refine ⟨rfl, ?_, ?_, ?_⟩ <;>
      simp [createOCOOrder, createStopMarketAction, createTakeProfitAction,
        OrderAction.isReduceOnly]

/-- Witness for C5: a concrete rejected OCO whose two fallback legs
succeed, through `createOCOOrder_fallback_spec`. -/
theorem createOCOOrder_fallback_spec_witness :
    (createOCOOrder (.error "OCO rejected")
        (.ok ⟨some "STOP_LOSS_LIMIT", true, some 47500⟩)
        (.ok ⟨some "limit", true, some 55000⟩) .sell 1 ⟨47500, none, 55000⟩).1
      = .ok (.separateOrders ⟨some "STOP_LOSS_LIMIT", true, some 47500⟩
          ⟨some "limit", true, some 55000⟩ "OCO rejected")
    ∧ (createOCOOrder (.error "OCO rejected")
        (.ok ⟨some "STOP_LOSS_LIMIT", true, some 47500⟩)
        (.ok ⟨some "limit", true, some 55000⟩) .sell 1 ⟨47500, none, 55000⟩).2
      = [createStopMarketAction .sell 1 47500,
         createTakeProfitAction .sell 1 55000] :=
  (createOCOOrder_fallback_spec (.error "OCO rejected")
    (.ok ⟨some "STOP_LOSS_LIMIT", true, some 47500⟩)
    (.ok ⟨some "limit", true, some 55000⟩) .sell 1 ⟨47500, none, 55000⟩
    "OCO rejected" rfl).2.2.2
    ⟨some "STOP_LOSS_LIMIT", true, some 47500⟩
    ⟨some "limit", true, some 55000⟩ rfl rfl

/-- C8: `checkInvalidationConditions` is a logical OR of the independently
evaluated conditions (it invalidates exactly when some condition triggers,
and reports exactly the triggered ones); an unknown condition type never
triggers (and the evaluator is a total function, so it cannot throw), so a
plan whose conditions are all of unknown type yields
`shouldInvalidate = false`; and a failed price lookup makes every
condition non-triggering, yielding `shouldInvalidate = false` rather than
an exception. -/
theorem checkInvalidationConditions_spec (env : CondEnv)
    (conds : List InvalidationCondition) :
    ((checkInvalidationConditions env conds).shouldInvalidate = true
      ↔ ∃ c ∈ conds, evaluateCondition env c = true)
    ∧ ((checkInvalidationConditions env conds).triggeredConditions
        = conds.filter (evaluateCondition env))
    ∧ (∀ c : InvalidationCondition, c.type ∉ knownConditionTypes →
        evaluateCondition env c = false)
    ∧ ((∀ c ∈ conds, c.type ∉ knownConditionTypes) →
        (checkInvalidationConditions env conds).shouldInvalidate = false)
    ∧ (∀ e, env.priceQ = .error e →
        (checkInvalidationConditions env conds).shouldInvalidate = false) := by
  have hunknown : ∀ c : InvalidationCondition, c.type ∉ knownConditionTypes →
      evaluateCondition env c = false := by
    intro c hc
    simp only [knownConditionTypes, List.mem_cons, List.not_mem_nil, or_false,
      not_or] at hc
    obtain ⟨h1, h2, h3, h4, h5⟩ := hc
    rcases hp : env.priceQ with pe | p
    · simp [evaluateCondition, hp]
    · simp [evaluateCondition, hp, h1, h2, h3, h4, h5]
  have hiff : (checkInvalidationConditions env conds).shouldInvalidate = true
      ↔ ∃ c ∈ conds, evaluateCondition env c = true := by
    simp [checkInvalidationConditions, List.length_pos_iff_exists_mem,
      List.mem_filter]
  refine ⟨hiff, rfl, hunknown, ?_, ?_⟩
  · intro hall
    have hnil : conds.filter (evaluateCondition env) = [] := by
      rw [List.filter_eq_nil_iff]
      intro c hc
      rw [hunknown c (hall c hc)]
      simp
    simp [checkInvalidationConditions, hnil]
  · intro e he
    have hnil : conds.filter (evaluateCondition env) = [] := by
      rw [List.filter_eq_nil_iff]
      intro c hc
      simp [evaluateCondition, he]
    simp [checkInvalidationConditions, hnil]

/-- Witness for C8: a plan whose only conditions are of the unknown types
`volume_spike` and `custom` yields `shouldInvalidate = false`, through
`checkInvalidationConditions_spec`. -/
theorem checkInvalidationConditions_spec_witness :
    (checkInvalidationConditions ⟨.ok 100, .ok [], .ok 50⟩
      [⟨"volume_spike", "volume doubled", ⟨none, none, none⟩⟩,
       ⟨"custom", "anything", ⟨none, none, none⟩⟩]).shouldInvalidate = false :=
  (checkInvalidationConditions_spec ⟨.ok 100, .ok [], .ok 50⟩
    [⟨"volume_spike", "volume doubled", ⟨none, none, none⟩⟩,
     ⟨"custom", "anything", ⟨none, none, none⟩⟩]).2.2.2.1 (by decide)

/-- C10: `closePosition` on a position whose size is nonzero but below the
market minimum returns the `dust_position` outcome carrying the amount and
the minimum, performing no close-order submission and no repayment (the
action list is empty); and it throws the not-found error exactly when the
base-asset balance entry is absent or its total is zero. -/
theorem closePosition_spec (env : CloseEnv) :
    (∀ t m, env.baseTotal = some t → t ≠ 0 → env.marketMinQ = .ok (some m) →
      0 < m → |t| < m →
      closePosition env = .ok (.dust |t| m, []))
    ∧ (closePosition env = .error (.notFound env.symbol)
        ↔ (env.baseTotal = none ∨ env.baseTotal = some 0)) := by
  constructor
  · intro t m hb ht hm h0 hlt
    simp only [closePosition, hb, hm, if_neg ht, Option.getD_some]
    rw [if_pos ⟨h0, hlt⟩]
  · constructor
    · intro h
      rcases hb : env.baseTotal with _ | t
      · exact Or.inl rfl
      · by_cases ht : t = 0
        · exact Or.inr (by rw [ht])
        · exfalso
          simp only [closePosition, hb, if_neg ht] at h
          repeat' split at h
          all_goals simp_all
    · rintro (hb | hb) <;> simp [closePosition, hb]

/-- Witness for C10: a dust-sized position (size 3, minimum 5) gets the
dust outcome with no submissions, and a zero-total balance entry throws the
not-found error, through `closePosition_spec`. -/
theorem closePosition_spec_witness :
    closePosition ⟨"BTC/USDT", some 3, .ok (some 5), .ok (), true,
        .ok 0, .ok 0, .ok ()⟩
      = .ok (.dust 3 5, [])
    ∧ closePosition ⟨"BTC/USDT", some 0, .ok (some 5), .ok (), true,
        .ok 0, .ok 0, .ok ()⟩
      = .error (.notFound "BTC/USDT") :=
  ⟨by
    have h := (closePosition_spec ⟨"BTC/USDT", some 3, .ok (some 5), .ok (),
      true, .ok 0, .ok 0, .ok ()⟩).1 3 5 rfl (by norm_num) rfl (by norm_num)
      (by rw [abs_of_pos] <;> norm_num)
    simpa using h,
   (closePosition_spec ⟨"BTC/USDT", some 0, .ok (some 5), .ok (), true,
      .ok 0, .ok 0, .ok ()⟩).2.mpr (Or.inr rfl)⟩

end Vanilla2
